import Mathlib

/-!
Verification of the usbipd-win MSI custom actions
(src/CustomActions/actions.cpp) via a shallow embedding.

The five functions of the source file — `log`, `require_reboot`,
`get_property`, `InstallDrivers`, `UninstallDrivers` — are modelled as
pure Lean functions over an environment `Env` that supplies the results
of the operating-system / installer-engine calls
(`MsiGetProperty`, `DiInstallDriver`, `DiUninstallDriver`,
`MsiCreateRecord`).  Each modelled function returns the observable
effects of the call as a list of `Event`s (message-record submissions,
global-atom registrations, driver install/uninstall attempts), in the
order the source performs them, together with the returned status code
where the source returns one.
-/

namespace CustomActions

/-- Win32 status code ERROR_SUCCESS. -/
def ERROR_SUCCESS : Nat := 0

/-- Win32 status code ERROR_MORE_DATA. -/
def ERROR_MORE_DATA : Nat := 234

/-- MSI custom-action status code ERROR_INSTALL_FAILURE. -/
def ERROR_INSTALL_FAILURE : Nat := 1603

/-- Result of one `MsiGetProperty` call: the returned status, the value
size written back through `pcchValueBuf`, and the contents of the
caller-supplied buffer after the call (modelled as a `String`; only the
first `size` characters are meaningful). -/
structure PropCall where
  status : Nat
  size : Nat
  buf : String
deriving DecidableEq, Repr

/-- Result of one `DiInstallDriver` / `DiUninstallDriver` call: the
boolean return value, the value written through the `NeedReboot`
out-parameter, and the value `GetLastError()` would return afterwards
(a DWORD). -/
structure DiResult where
  ok : Bool
  needReboot : Bool
  lastError : Nat
deriving DecidableEq, Repr

/-- Observable effects of the custom actions. -/
inductive Event where
  /-- A message record submitted via `MsiProcessMessage` with the given
  field-0 text. -/
  | logMsg (msg : String)
  /-- A global atom registered via `GlobalAddAtom` with the given name. -/
  | addAtom (name : String)
  /-- A `DiInstallDriver` call on the given INF path. -/
  | diInstall (path : String)
  /-- A `DiUninstallDriver` call on the given INF path. -/
  | diUninstall (path : String)
deriving DecidableEq, Repr

/-- Environment supplying the results of the OS / installer calls made
by the custom actions.  `props name n` is the result of
`MsiGetProperty` for property `name` with a buffer of size `n`;
`diInstallDriver p` / `diUninstallDriver p` the result of the driver
call on INF path `p`; `msiCreateRecordOk` whether `MsiCreateRecord(0)`
returns a non-null handle. -/
structure Env where
  props : String → Nat → PropCall
  diInstallDriver : String → DiResult
  diUninstallDriver : String → DiResult
  msiCreateRecordOk : Bool

/-- Hexadecimal rendering of a `DWORD` as produced by the `%08x`
directive: lowercase hex digits, zero-padded to width 8. -/
def hex8 (n : Nat) : String :=
  let ds := Nat.toDigits 16 n
  ⟨List.replicate (8 - ds.length) '0' ++ ds⟩

/-- Core of the printf formatting used by `log` (`vswprintf_s`),
restricted to the directives the source actually uses: literal
characters and `%08x` consuming one DWORD argument. -/
def runFormat : List Char → List Nat → List Char
  | [], _ => []
  | '%' :: '0' :: '8' :: 'x' :: rest, a :: as => (hex8 a).data ++ runFormat rest as
  | '%' :: '0' :: '8' :: 'x' :: rest, [] => runFormat rest []
  | c :: rest, as => c :: runFormat rest as

/-- Printf formatting of a format string against a list of DWORD
arguments, modelling the `_vscwprintf` / `vswprintf_s` pair in `log`. -/
def formatMsg (fmt : String) (args : List Nat) : String :=
  ⟨runFormat fmt.data args⟩

/-- Model of `log`: creates a record (if `MsiCreateRecord` fails the
function returns without submitting anything), formats the message,
prefixes it with `"CustomActions: "`, and submits it via
`MsiProcessMessage`. -/
def log (env : Env) (fmt : String) (args : List Nat) : List Event :=
  if env.msiCreateRecordOk then
    [Event.logMsg ("CustomActions: " ++ formatMsg fmt args)]
  else
    []

/-- Model of `require_reboot`: logs `"Requesting reboot"` and registers
the global atom `WcaDeferredActionRequiresReboot` (the marker
`WixCheckRebootRequired` looks for after InstallFinalize). -/
def require_reboot (env : Env) : List Event :=
  log env "Requesting reboot" [] ++
    [Event.addAtom "WcaDeferredActionRequiresReboot"]

/-- Model of `get_property` over the two-call `MsiGetProperty` protocol
`q`: first call with `valueSize = 0`; anything other than
`ERROR_MORE_DATA` yields the empty string; then the size is incremented
by one (for the NUL) and the second call made; anything other than
`ERROR_SUCCESS` yields the empty string; otherwise the result is
`wstring(value.get(), valueSize)`, i.e. the first `valueSize`
characters of the buffer, where `valueSize` is the size written back by
the second call. -/
def get_property (q : Nat → PropCall) : String :=
  let first := q 0
  if first.status ≠ ERROR_MORE_DATA then
    ""
  else
    let second := q (first.size + 1)
    if second.status ≠ ERROR_SUCCESS then
      ""
    else
      ⟨second.buf.data.take second.size⟩

/-- The configuration payload read at the top of both entry points:
`get_property(hInstall, L"CustomActionData")`. -/
def CustomActionData (env : Env) : String :=
  get_property (env.props "CustomActionData")

/-- Model of the `InstallDrivers` entry point: reads the configuration
payload, installs VBoxUSBMon then VBoxUSB via `DiInstallDriver`
(logging before each step), fails fast with `ERROR_INSTALL_FAILURE` and
an error log on the first failing call, aggregates the reboot flags,
raises `require_reboot` when either step needs a reboot, and returns
`ERROR_SUCCESS`. -/
def InstallDrivers (env : Env) : Nat × List Event :=
  let data := CustomActionData env
  let t1 := log env "Installing VBoxUSBMon" []
  let r1 := env.diInstallDriver (data ++ "Drivers\\VBoxUSBMon\\VBoxUSBMon.inf")
  let t1 := t1 ++ [Event.diInstall (data ++ "Drivers\\VBoxUSBMon\\VBoxUSBMon.inf")]
  if r1.ok = false then
    (ERROR_INSTALL_FAILURE,
      t1 ++ log env "ERROR installing VBoxUSBMon: 0x%08x" [r1.lastError % 4294967296])
  else
    let t2 := t1 ++ log env "Installing VBoxUSB" []
    let r2 := env.diInstallDriver (data ++ "Drivers\\VBoxUSB\\VBoxUSB.inf")
    let t2 := t2 ++ [Event.diInstall (data ++ "Drivers\\VBoxUSB\\VBoxUSB.inf")]
    if r2.ok = false then
      (ERROR_INSTALL_FAILURE,
        t2 ++ log env "ERROR installing VBoxUSB: 0x%08x" [r2.lastError % 4294967296])
    else
      if r1.needReboot || r2.needReboot then
        (ERROR_SUCCESS, t2 ++ require_reboot env)
      else
        (ERROR_SUCCESS, t2)

/-- Model of the `UninstallDrivers` entry point: reads the configuration
payload, uninstalls VBoxUSB then VBoxUSBMon via `DiUninstallDriver`
(logging before each step), logs an error and continues on each failing
call, ignores the reboot flags, and always returns `ERROR_SUCCESS`. -/
def UninstallDrivers (env : Env) : Nat × List Event :=
  let data := CustomActionData env
  let t1 := log env "Uninstalling VBoxUSB" []
  let r1 := env.diUninstallDriver (data ++ "Drivers\\VBoxUSB\\VBoxUSB.inf")
  let t1 := t1 ++ [Event.diUninstall (data ++ "Drivers\\VBoxUSB\\VBoxUSB.inf")]
  let t1 := if r1.ok = false then
      t1 ++ log env "ERROR uninstalling VBoxUSB: 0x%08x" [r1.lastError % 4294967296]
    else t1
  let t2 := t1 ++ log env "Uninstalling VBoxUSBMon" []
  let r2 := env.diUninstallDriver (data ++ "Drivers\\VBoxUSBMon\\VBoxUSBMon.inf")
  let t2 := t2 ++ [Event.diUninstall (data ++ "Drivers\\VBoxUSBMon\\VBoxUSBMon.inf")]
  let t2 := if r2.ok = false then
      t2 ++ log env "ERROR uninstalling VBoxUSBMon: 0x%08x" [r2.lastError % 4294967296]
    else t2
  (ERROR_SUCCESS, t2)

/-- The INF paths passed to `DiInstallDriver`, in call order. -/
def diInstallPaths (es : List Event) : List String :=
  es.filterMap fun e =>
    match e with
    | Event.diInstall p => some p
    | _ => none

/-- The INF paths passed to `DiUninstallDriver`, in call order. -/
def diUninstallPaths (es : List Event) : List String :=
  es.filterMap fun e =>
    match e with
    | Event.diUninstall p => some p
    | _ => none

/-- The global-atom names registered, in call order. -/
def atomNames (es : List Event) : List String :=
  es.filterMap fun e =>
    match e with
    | Event.addAtom n => some n
    | _ => none

/-! Helper lemmas evaluating the printf formatting on the format
strings the source uses. -/

/-- Formatting the VBoxUSBMon install-error format string. -/
theorem fmt_err_install_mon (e : Nat) :
    formatMsg "ERROR installing VBoxUSBMon: 0x%08x" [e] =
      "ERROR installing VBoxUSBMon: 0x" ++ hex8 e := by
  apply String.ext
  simp [formatMsg, runFormat, hex8]

/-- Formatting the VBoxUSB install-error format string. -/
theorem fmt_err_install_usb (e : Nat) :
    formatMsg "ERROR installing VBoxUSB: 0x%08x" [e] =
      "ERROR installing VBoxUSB: 0x" ++ hex8 e := by
  apply String.ext
  simp [formatMsg, runFormat, hex8]

/-- Formatting the VBoxUSB uninstall-error format string. -/
theorem fmt_err_uninstall_usb (e : Nat) :
    formatMsg "ERROR uninstalling VBoxUSB: 0x%08x" [e] =
      "ERROR uninstalling VBoxUSB: 0x" ++ hex8 e := by
  apply String.ext
  simp [formatMsg, runFormat, hex8]

/-- Formatting the VBoxUSBMon uninstall-error format string. -/
theorem fmt_err_uninstall_mon (e : Nat) :
    formatMsg "ERROR uninstalling VBoxUSBMon: 0x%08x" [e] =
      "ERROR uninstalling VBoxUSBMon: 0x" ++ hex8 e := by
  apply String.ext
  simp [formatMsg, runFormat, hex8]

/-! Concrete environments used to witness the theorems on concrete
inputs. -/

/-- Property oracle answering every query with `ERROR_SUCCESS` and an
empty value (the property is unset, so the size-discovery call does not
return `ERROR_MORE_DATA`). -/
def props0 : String → Nat → PropCall := fun _ _ => ⟨ERROR_SUCCESS, 0, ""⟩

/-- Driver call that always succeeds without needing a reboot. -/
def diOk : String → DiResult := fun _ => ⟨true, false, 0⟩

/-- Driver call that always succeeds and needs a reboot. -/
def diOkReboot : String → DiResult := fun _ => ⟨true, true, 0⟩

/-- Driver call that always fails with last error 5 (access denied). -/
def diFail : String → DiResult := fun _ => ⟨false, false, 5⟩

/-- Environment in which every OS call succeeds. -/
def envOk : Env := ⟨props0, diOk, diOk, true⟩

/-- Environment in which `DiInstallDriver` always fails. -/
def envInstFail : Env := ⟨props0, diFail, diOk, true⟩

/-- Environment in which `DiInstallDriver` succeeds needing a reboot. -/
def envReboot : Env := ⟨props0, diOkReboot, diOk, true⟩

/-- Environment in which `DiUninstallDriver` always fails. -/
def envUninstFail : Env := ⟨props0, diOk, diFail, true⟩

/-- Property oracle storing the three-character value `"C:\"`:
size-discovery reports `ERROR_MORE_DATA` with the true length, any
larger buffer receives the value. -/
def propsCW : Nat → PropCall := fun n =>
  if n = 0 then ⟨ERROR_MORE_DATA, 3, ""⟩ else ⟨ERROR_SUCCESS, 3, "C:\\"⟩

/-- C5: when the two-phase size-then-fetch protocol reports the value's
true length on the first call (status `ERROR_MORE_DATA`) and copies the
value on the second (status `ERROR_SUCCESS`), `get_property` returns
exactly the stored string, for an arbitrary stored string. -/
theorem get_property_roundtrip (q : Nat → PropCall) (v : String)
    (h1 : (q 0).status = ERROR_MORE_DATA) (h2 : (q 0).size = v.length)
    (h3 : q (v.length + 1) = ⟨ERROR_SUCCESS, v.length, v⟩) :
    get_property q = v := by
  have h3' : q ((q 0).size + 1) = ⟨ERROR_SUCCESS, v.length, v⟩ := by
    rw [h2]; exact h3
  cases v with
  | mk data =>
    simp [get_property, h1, h3', ERROR_SUCCESS, ERROR_MORE_DATA,
      String.length] at h3' ⊢

/-- C5 witness: the protocol hypotheses hold for the oracle `propsCW`
storing `"C:\"`, and `get_property` returns `"C:\"` there. -/
theorem get_property_roundtrip_witness :
    (propsCW 0).status = ERROR_MORE_DATA ∧
    (propsCW 0).size = ("C:\\" : String).length ∧
    propsCW (("C:\\" : String).length + 1) =
      ⟨ERROR_SUCCESS, ("C:\\" : String).length, "C:\\"⟩ ∧
    get_property propsCW = "C:\\" :=
  ⟨by decide, by decide, by decide,
    get_property_roundtrip propsCW "C:\\" (by decide) (by decide) (by decide)⟩

/-- C6: if the size-discovery call returns anything other than
`ERROR_MORE_DATA`, or the fetch call returns anything other than
`ERROR_SUCCESS`, `get_property` returns the empty string instead of
propagating an error. -/
theorem get_property_error_empty (q : Nat → PropCall)
    (h : (q 0).status ≠ ERROR_MORE_DATA ∨
      (q ((q 0).size + 1)).status ≠ ERROR_SUCCESS) :
    get_property q = "" := by
  by_cases hc : (q 0).status = ERROR_MORE_DATA
  · rcases h with h | h
    · exact absurd hc h
    · simp [get_property, hc, h]
  · simp [get_property, hc]

/-- C6 witness: the all-success oracle `props0` never returns
`ERROR_MORE_DATA` on the size-discovery call, and `get_property`
returns the empty string on it. -/
theorem get_property_error_empty_witness :
    ((props0 "CustomActionData" 0).status ≠ ERROR_MORE_DATA ∨
      ((props0 "CustomActionData"
        ((props0 "CustomActionData" 0).size + 1)).status ≠ ERROR_SUCCESS)) ∧
    get_property (props0 "CustomActionData") = "" :=
  ⟨Or.inl (by decide),
    get_property_error_empty (props0 "CustomActionData") (Or.inl (by decide))⟩

/-- C1: if the `DiInstallDriver` call for VBoxUSBMon fails, then the
VBoxUSBMon path is the only path ever passed to `DiInstallDriver` (the
VBoxUSB step is never attempted), the OS error code of the failing call
is logged (when the message record can be created), and `InstallDrivers`
returns `ERROR_INSTALL_FAILURE`. -/
theorem InstallDrivers_first_failure_aborts (env : Env)
    (hfail : (env.diInstallDriver
      (CustomActionData env ++ "Drivers\\VBoxUSBMon\\VBoxUSBMon.inf")).ok = false) :
    (InstallDrivers env).1 = ERROR_INSTALL_FAILURE ∧
    diInstallPaths (InstallDrivers env).2 =
      [CustomActionData env ++ "Drivers\\VBoxUSBMon\\VBoxUSBMon.inf"] ∧
    (env.msiCreateRecordOk = true →
      Event.logMsg ("CustomActions: " ++ ("ERROR installing VBoxUSBMon: 0x" ++
        hex8 ((env.diInstallDriver
          (CustomActionData env ++ "Drivers\\VBoxUSBMon\\VBoxUSBMon.inf")).lastError
          % 4294967296))) ∈ (InstallDrivers env).2) := by
  cases hrec : env.msiCreateRecordOk <;>
    simp [InstallDrivers, hfail, log, diInstallPaths, fmt_err_install_mon, hrec]

/-- C1 witness: in `envInstFail` the first driver install fails, the
action fails, only the VBoxUSBMon path is attempted, and the error code
is logged. -/
theorem InstallDrivers_first_failure_aborts_witness :
    (envInstFail.diInstallDriver
      (CustomActionData envInstFail ++ "Drivers\\VBoxUSBMon\\VBoxUSBMon.inf")).ok = false ∧
    ((InstallDrivers envInstFail).1 = ERROR_INSTALL_FAILURE ∧
    diInstallPaths (InstallDrivers envInstFail).2 =
      [CustomActionData envInstFail ++ "Drivers\\VBoxUSBMon\\VBoxUSBMon.inf"] ∧
    (envInstFail.msiCreateRecordOk = true →
      Event.logMsg ("CustomActions: " ++ ("ERROR installing VBoxUSBMon: 0x" ++
        hex8 ((envInstFail.diInstallDriver
          (CustomActionData envInstFail ++ "Drivers\\VBoxUSBMon\\VBoxUSBMon.inf")).lastError
          % 4294967296))) ∈ (InstallDrivers envInstFail).2)) :=
  ⟨by decide, InstallDrivers_first_failure_aborts envInstFail (by decide)⟩

/-- C2: the reboot marker is registered at most once per
`InstallDrivers` invocation, and when both driver installs succeed and
either reports that a reboot is needed, it is registered exactly once. -/
theorem InstallDrivers_reboot_marker_once (env : Env) :
    (atomNames (InstallDrivers env).2).length ≤ 1 ∧
    ((env.diInstallDriver
        (CustomActionData env ++ "Drivers\\VBoxUSBMon\\VBoxUSBMon.inf")).ok = true →
      (env.diInstallDriver
        (CustomActionData env ++ "Drivers\\VBoxUSB\\VBoxUSB.inf")).ok = true →
      ((env.diInstallDriver
          (CustomActionData env ++ "Drivers\\VBoxUSBMon\\VBoxUSBMon.inf")).needReboot ||
        (env.diInstallDriver
          (CustomActionData env ++ "Drivers\\VBoxUSB\\VBoxUSB.inf")).needReboot) = true →
      atomNames (InstallDrivers env).2 = ["WcaDeferredActionRequiresReboot"]) := by
  cases h1 : (env.diInstallDriver
      (CustomActionData env ++ "Drivers\\VBoxUSBMon\\VBoxUSBMon.inf")).ok <;>
    cases h2 : (env.diInstallDriver
      (CustomActionData env ++ "Drivers\\VBoxUSB\\VBoxUSB.inf")).ok <;>
    cases n1 : (env.diInstallDriver
      (CustomActionData env ++ "Drivers\\VBoxUSBMon\\VBoxUSBMon.inf")).needReboot <;>
    cases n2 : (env.diInstallDriver
      (CustomActionData env ++ "Drivers\\VBoxUSB\\VBoxUSB.inf")).needReboot <;>
    cases hrec : env.msiCreateRecordOk <;>
    simp [InstallDrivers, atomNames, log, require_reboot, h1, h2, n1, n2, hrec]

/-- C2 witness: in `envReboot` both installs succeed and the first
reports reboot need; the marker is registered exactly once. -/
theorem InstallDrivers_reboot_marker_once_witness :
    (envReboot.diInstallDriver
      (CustomActionData envReboot ++ "Drivers\\VBoxUSBMon\\VBoxUSBMon.inf")).ok = true ∧
    ((envReboot.diInstallDriver
        (CustomActionData envReboot ++ "Drivers\\VBoxUSBMon\\VBoxUSBMon.inf")).needReboot ||
      (envReboot.diInstallDriver
        (CustomActionData envReboot ++ "Drivers\\VBoxUSB\\VBoxUSB.inf")).needReboot) = true ∧
    atomNames (InstallDrivers envReboot).2 = ["WcaDeferredActionRequiresReboot"] :=
  ⟨by decide, by decide,
    (InstallDrivers_reboot_marker_once envReboot).2 (by decide) (by decide) (by decide)⟩

/-- C4: when both driver installs succeed and neither reports reboot
need, no reboot marker is registered and `InstallDrivers` returns
`ERROR_SUCCESS`. -/
theorem InstallDrivers_success_no_reboot (env : Env)
    (h1 : (env.diInstallDriver
      (CustomActionData env ++ "Drivers\\VBoxUSBMon\\VBoxUSBMon.inf")).ok = true)
    (h2 : (env.diInstallDriver
      (CustomActionData env ++ "Drivers\\VBoxUSB\\VBoxUSB.inf")).ok = true)
    (n1 : (env.diInstallDriver
      (CustomActionData env ++ "Drivers\\VBoxUSBMon\\VBoxUSBMon.inf")).needReboot = false)
    (n2 : (env.diInstallDriver
      (CustomActionData env ++ "Drivers\\VBoxUSB\\VBoxUSB.inf")).needReboot = false) :
    (InstallDrivers env).1 = ERROR_SUCCESS ∧
    atomNames (InstallDrivers env).2 = [] := by
  cases hrec : env.msiCreateRecordOk <;>
    simp [InstallDrivers, atomNames, log, h1, h2, n1, n2, hrec]

/-- C4 witness: in `envOk` both installs succeed without reboot need;
the action returns success and registers no marker. -/
theorem InstallDrivers_success_no_reboot_witness :
    (envOk.diInstallDriver
      (CustomActionData envOk ++ "Drivers\\VBoxUSBMon\\VBoxUSBMon.inf")).ok = true ∧
    (envOk.diInstallDriver
      (CustomActionData envOk ++ "Drivers\\VBoxUSB\\VBoxUSB.inf")).needReboot = false ∧
    ((InstallDrivers envOk).1 = ERROR_SUCCESS ∧
      atomNames (InstallDrivers envOk).2 = []) :=
  ⟨by decide, by decide,
    InstallDrivers_success_no_reboot envOk (by decide) (by decide) (by decide) (by decide)⟩

/-- C3: whatever the outcomes of the two `DiUninstallDriver` calls,
`UninstallDrivers` attempts both removal steps (VBoxUSB then
VBoxUSBMon), logs each failing step with its OS error code (when the
message record can be created), and returns `ERROR_SUCCESS`. -/
theorem UninstallDrivers_best_effort (env : Env) :
    (UninstallDrivers env).1 = ERROR_SUCCESS ∧
    diUninstallPaths (UninstallDrivers env).2 =
      [CustomActionData env ++ "Drivers\\VBoxUSB\\VBoxUSB.inf",
        CustomActionData env ++ "Drivers\\VBoxUSBMon\\VBoxUSBMon.inf"] ∧
    (env.msiCreateRecordOk = true →
      ((env.diUninstallDriver
          (CustomActionData env ++ "Drivers\\VBoxUSB\\VBoxUSB.inf")).ok = false →
        Event.logMsg ("CustomActions: " ++ ("ERROR uninstalling VBoxUSB: 0x" ++
          hex8 ((env.diUninstallDriver
            (CustomActionData env ++ "Drivers\\VBoxUSB\\VBoxUSB.inf")).lastError
            % 4294967296))) ∈ (UninstallDrivers env).2) ∧
      ((env.diUninstallDriver
          (CustomActionData env ++ "Drivers\\VBoxUSBMon\\VBoxUSBMon.inf")).ok = false →
        Event.logMsg ("CustomActions: " ++ ("ERROR uninstalling VBoxUSBMon: 0x" ++
          hex8 ((env.diUninstallDriver
            (CustomActionData env ++ "Drivers\\VBoxUSBMon\\VBoxUSBMon.inf")).lastError
            % 4294967296))) ∈ (UninstallDrivers env).2)) := by
  cases u1 : (env.diUninstallDriver
      (CustomActionData env ++ "Drivers\\VBoxUSB\\VBoxUSB.inf")).ok <;>
    cases u2 : (env.diUninstallDriver
      (CustomActionData env ++ "Drivers\\VBoxUSBMon\\VBoxUSBMon.inf")).ok <;>
    cases hrec : env.msiCreateRecordOk <;>
    simp [UninstallDrivers, diUninstallPaths, log, u1, u2, hrec,
      fmt_err_uninstall_usb, fmt_err_uninstall_mon]

/-- C3 witness: in `envUninstFail` both removals fail; both steps are
attempted, both errors are logged, and the action still succeeds. -/
theorem UninstallDrivers_best_effort_witness :
    (UninstallDrivers envUninstFail).1 = ERROR_SUCCESS ∧
    (envUninstFail.diUninstallDriver
      (CustomActionData envUninstFail ++ "Drivers\\VBoxUSB\\VBoxUSB.inf")).ok = false ∧
    Event.logMsg ("CustomActions: " ++ ("ERROR uninstalling VBoxUSB: 0x" ++
      hex8 ((envUninstFail.diUninstallDriver
        (CustomActionData envUninstFail ++ "Drivers\\VBoxUSB\\VBoxUSB.inf")).lastError
        % 4294967296))) ∈ (UninstallDrivers envUninstFail).2 ∧
    Event.logMsg ("CustomActions: " ++ ("ERROR uninstalling VBoxUSBMon: 0x" ++
      hex8 ((envUninstFail.diUninstallDriver
        (CustomActionData envUninstFail ++ "Drivers\\VBoxUSBMon\\VBoxUSBMon.inf")).lastError
        % 4294967296))) ∈ (UninstallDrivers envUninstFail).2 :=
  ⟨(UninstallDrivers_best_effort envUninstFail).1, by decide,
    ((UninstallDrivers_best_effort envUninstFail).2.2 (by decide)).1 (by decide),
    ((UninstallDrivers_best_effort envUninstFail).2.2 (by decide)).2 (by decide)⟩

/-- C7: `require_reboot` registers exactly one global atom, named
exactly `WcaDeferredActionRequiresReboot`, and in every environment the
two entry points register no atom with any other name (`InstallDrivers`
registers either nothing or exactly that marker; `UninstallDrivers`
registers nothing). -/
theorem reboot_marker_name_fixed (env : Env) :
    atomNames (require_reboot env) = ["WcaDeferredActionRequiresReboot"] ∧
    (atomNames (InstallDrivers env).2 = [] ∨
      atomNames (InstallDrivers env).2 = ["WcaDeferredActionRequiresReboot"]) ∧
    atomNames (UninstallDrivers env).2 = [] := by
  refine ⟨?_, ?_, ?_⟩
  · cases hrec : env.msiCreateRecordOk <;>
      simp [require_reboot, atomNames, log, hrec]
  · cases h1 : (env.diInstallDriver
        (CustomActionData env ++ "Drivers\\VBoxUSBMon\\VBoxUSBMon.inf")).ok <;>
      cases h2 : (env.diInstallDriver
        (CustomActionData env ++ "Drivers\\VBoxUSB\\VBoxUSB.inf")).ok <;>
      cases n1 : (env.diInstallDriver
        (CustomActionData env ++ "Drivers\\VBoxUSBMon\\VBoxUSBMon.inf")).needReboot <;>
      cases n2 : (env.diInstallDriver
        (CustomActionData env ++ "Drivers\\VBoxUSB\\VBoxUSB.inf")).needReboot <;>
      cases hrec : env.msiCreateRecordOk <;>
      simp [InstallDrivers, atomNames, log, require_reboot, h1, h2, n1, n2, hrec]
  · cases u1 : (env.diUninstallDriver
        (CustomActionData env ++ "Drivers\\VBoxUSB\\VBoxUSB.inf")).ok <;>
      cases u2 : (env.diUninstallDriver
        (CustomActionData env ++ "Drivers\\VBoxUSBMon\\VBoxUSBMon.inf")).ok <;>
      cases hrec : env.msiCreateRecordOk <;>
      simp [UninstallDrivers, atomNames, log, u1, u2, hrec]

/-- C8: `UninstallDrivers` never registers the reboot marker: in every
environment, whatever reboot-need flags the removal calls report, its
trace contains no atom registration. -/
theorem UninstallDrivers_no_reboot_marker (env : Env) :
    atomNames (UninstallDrivers env).2 = [] := by
  cases u1 : (env.diUninstallDriver
      (CustomActionData env ++ "Drivers\\VBoxUSB\\VBoxUSB.inf")).ok <;>
    cases u2 : (env.diUninstallDriver
      (CustomActionData env ++ "Drivers\\VBoxUSBMon\\VBoxUSBMon.inf")).ok <;>
    cases hrec : env.msiCreateRecordOk <;>
    simp [UninstallDrivers, atomNames, log, u1, u2, hrec]

/-- C9: when the message record can be created, `log` submits exactly
one message, the printf-formatted text prefixed with
`"CustomActions: "`; when record creation fails it submits nothing;
formatting with zero arguments yields the format string itself and
`%08x` renders the argument as 8 zero-padded lowercase hex digits. -/
theorem log_prefix_and_swallow (env : Env) (fmt : String) (args : List Nat) (e : Nat) :
    (env.msiCreateRecordOk = true →
      log env fmt args = [Event.logMsg ("CustomActions: " ++ formatMsg fmt args)]) ∧
    (env.msiCreateRecordOk = false → log env fmt args = []) ∧
    formatMsg "Requesting reboot" [] = "Requesting reboot" ∧
    formatMsg "ERROR installing VBoxUSBMon: 0x%08x" [e] =
      "ERROR installing VBoxUSBMon: 0x" ++ hex8 e := by
  refine ⟨fun h => by simp [log, h], fun h => by simp [log, h], by decide,
    fmt_err_install_mon e⟩

/-- C9 witness: in `envOk` the record is created and the zero-argument
message `"Requesting reboot"` is submitted with the component tag. -/
theorem log_prefix_and_swallow_witness :
    envOk.msiCreateRecordOk = true ∧
    log envOk "Requesting reboot" [] =
      [Event.logMsg ("CustomActions: " ++ formatMsg "Requesting reboot" [])] :=
  ⟨by decide, (log_prefix_and_swallow envOk "Requesting reboot" [] 0).1 (by decide)⟩

/-- C10: `UninstallDrivers` removes the drivers in the exact reverse of
the installation order: when the first install step succeeds,
`InstallDrivers` passes the VBoxUSBMon INF path first and the VBoxUSB
INF path second to `DiInstallDriver`, while `UninstallDrivers` passes
the VBoxUSB INF path first and the VBoxUSBMon INF path second to
`DiUninstallDriver`; each path is the configuration payload followed by
the fixed relative location `Drivers\<Name>\<Name>.inf`. -/
theorem uninstall_reverse_order (env : Env) :
    ((env.diInstallDriver
        (CustomActionData env ++ "Drivers\\VBoxUSBMon\\VBoxUSBMon.inf")).ok = true →
      diInstallPaths (InstallDrivers env).2 =
        [CustomActionData env ++ "Drivers\\VBoxUSBMon\\VBoxUSBMon.inf",
          CustomActionData env ++ "Drivers\\VBoxUSB\\VBoxUSB.inf"]) ∧
    diUninstallPaths (UninstallDrivers env).2 =
      [CustomActionData env ++ "Drivers\\VBoxUSB\\VBoxUSB.inf",
        CustomActionData env ++ "Drivers\\VBoxUSBMon\\VBoxUSBMon.inf"] := by
  constructor
  · intro h1
    cases h2 : (env.diInstallDriver
        (CustomActionData env ++ "Drivers\\VBoxUSB\\VBoxUSB.inf")).ok <;>
      cases n1 : (env.diInstallDriver
        (CustomActionData env ++ "Drivers\\VBoxUSBMon\\VBoxUSBMon.inf")).needReboot <;>
      cases n2 : (env.diInstallDriver
        (CustomActionData env ++ "Drivers\\VBoxUSB\\VBoxUSB.inf")).needReboot <;>
      cases hrec : env.msiCreateRecordOk <;>
      simp [InstallDrivers, diInstallPaths, log, require_reboot, h1, h2, n1, n2, hrec]
  · cases u1 : (env.diUninstallDriver
        (CustomActionData env ++ "Drivers\\VBoxUSB\\VBoxUSB.inf")).ok <;>
      cases u2 : (env.diUninstallDriver
        (CustomActionData env ++ "Drivers\\VBoxUSBMon\\VBoxUSBMon.inf")).ok <;>
      cases hrec : env.msiCreateRecordOk <;>
      simp [UninstallDrivers, diUninstallPaths, log, u1, u2, hrec]

/-- C10 witness: in `envOk` the install order is VBoxUSBMon then
VBoxUSB and the uninstall order is VBoxUSB then VBoxUSBMon. -/
theorem uninstall_reverse_order_witness :
    diInstallPaths (InstallDrivers envOk).2 =
      [CustomActionData envOk ++ "Drivers\\VBoxUSBMon\\VBoxUSBMon.inf",
        CustomActionData envOk ++ "Drivers\\VBoxUSB\\VBoxUSB.inf"] ∧
    diUninstallPaths (UninstallDrivers envOk).2 =
      [CustomActionData envOk ++ "Drivers\\VBoxUSB\\VBoxUSB.inf",
        CustomActionData envOk ++ "Drivers\\VBoxUSBMon\\VBoxUSBMon.inf"] :=
  ⟨(uninstall_reverse_order envOk).1 (by decide), (uninstall_reverse_order envOk).2⟩

end CustomActions
